import Mathlib

/-!
Verification of the `portal-odeus` request-forwarding handler
(`api/generate.js`, retry+fallback variant, plus the simpler variant).

The JavaScript source is shallowly embedded: JSON values become an inductive
type, the upstream HTTP endpoint becomes an oracle mapping the index of each
outbound fetch to its response, and the asynchronous handler becomes a total
function returning the outbound HTTP response together with a trace of the
outbound calls and backoff waits it performed.
-/

/-- JSON values, as parsed by `res.json()` and produced by the handler. -/
inductive Json where
  | null : Json
  | bool (b : Bool) : Json
  | num (n : Int) : Json
  | str (s : String) : Json
  | arr (xs : List Json) : Json
  | obj (fields : List (String × Json)) : Json
deriving Repr

/-- JavaScript truthiness of a JSON value (`null`, `false`, `0` and `""` are
falsy; every object and array is truthy). -/
def truthy : Json → Bool
  | .null => false
  | .bool b => b
  | .num n => n != 0
  | .str s => s != ""
  | .arr _ => true
  | .obj _ => true

/-- Property access `v.k` in JavaScript: defined only on objects; on every
other JSON value it yields `undefined`, modelled as `none`. -/
def Json.lookup : Json → String → Option Json
  | .obj fields, k => List.lookup k fields
  | _, _ => none

/-- Escape the characters of a string for JSON output (quote and backslash;
the payloads the program manipulates contain no control characters). -/
def escapeChars : List Char → String
  | [] => ""
  | c :: cs =>
    (if c = '"' then "\\\"" else if c = '\\' then "\\\\" else String.singleton c)
      ++ escapeChars cs

/-- Escape a string for JSON output. -/
def escapeJson (s : String) : String := escapeChars s.data

/-- Comma-join, as `Array.prototype.join(",")` does. -/
def joinComma : List String → String
  | [] => ""
  | [s] => s
  | s :: rest => s ++ "," ++ joinComma rest

mutual

/-- `JSON.stringify` on the embedded JSON values. -/
def stringify : Json → String
  | .null => "null"
  | .bool true => "true"
  | .bool false => "false"
  | .num n => toString n
  | .str s => "\"" ++ escapeJson s ++ "\""
  | .arr xs => "[" ++ joinComma (stringifyList xs) ++ "]"
  | .obj fs => "\x7b" ++ joinComma (stringifyFields fs) ++ "\x7d"

def stringifyList : List Json → List String
  | [] => []
  | x :: xs => stringify x :: stringifyList xs

def stringifyFields : List (String × Json) → List String
  | [] => []
  | (k, v) :: fs => ("\"" ++ escapeJson k ++ "\":" ++ stringify v) :: stringifyFields fs

end

mutual

/-- JavaScript string coercion `String(v)` / template interpolation of a JSON
value: strings are used verbatim, objects display as `[object Object]`,
arrays comma-join their elements (with `null` rendering empty). -/
def jsToString : Json → String
  | .null => "null"
  | .bool true => "true"
  | .bool false => "false"
  | .num n => toString n
  | .str s => s
  | .arr xs => joinComma (jsToStringList xs)
  | .obj _ => "[object Object]"

def jsToStringList : List Json → List String
  | [] => []
  | .null :: xs => "" :: jsToStringList xs
  | x :: xs => jsToString x :: jsToStringList xs

end

/-- `data?.error` of a parsed payload. -/
def errField (data : Json) : Option Json := data.lookup "error"

/-- `data?.error?.message` of a parsed payload. -/
def errMsgField (data : Json) : Option Json :=
  (data.lookup "error").bind (fun e => e.lookup "message")

/-- Keep an optional value only when it is JS-truthy (the `||` chain skips
both absent and falsy operands). -/
def keepTruthy : Option Json → Option Json
  | some v => if truthy v then some v else none
  | none => none

/-- The `msg` computed for a non-2xx response:
`data?.error?.message || data?.error || JSON.stringify(data)`. -/
def extractMsg (data : Json) : Json :=
  match keepTruthy (errMsgField data) with
  | some v => v
  | none =>
    match keepTruthy (errField data) with
    | some v => v
    | none => Json.str (stringify data)

/-- The text of the thrown error: the template `` `${status}: ${msg}` ``. -/
def errText (status : Nat) (msg : Json) : String :=
  toString status ++ ": " ++ jsToString msg

/-- A JavaScript `Error` object as the handler observes it: its `name` and
`message`, and the `status` / `data` properties `fetchWithRetry` attaches. -/
structure JsError where
  name : String := "Error"
  message : String
  status : Option Nat := none
  data : Option Json := none
deriving Repr

/-- `String(e)` on an `Error`: `name` or `name ++ ": " ++ message`. -/
def JsError.toDisplay (e : JsError) : String :=
  if e.message = "" then e.name else e.name ++ ": " ++ e.message

/-- `e?.message || String(e)`, the message the outer catch reports. -/
def handlerMessage (e : JsError) : String :=
  if e.message = "" then e.toDisplay else e.message

/-- Result of `res.json()`: a parsed JSON value, or a rejection whose
`String(e)` rendering is recorded. -/
inductive BodyParse where
  | parsed (j : Json)
  | failed (errStr : String)
deriving Repr

/-- `res.json().catch(() => ({}))`: a parse failure yields `{}`. -/
def parseOrEmpty : BodyParse → Json
  | .parsed j => j
  | .failed _ => Json.obj []

/-- One upstream response: an HTTP response with a status and a body-parse
result, or a rejected `fetch` (name and message of the thrown error). -/
inductive UpstreamResp where
  | ok (status : Nat) (body : BodyParse)
  | netErr (name message : String)
deriving Repr

/-- One outbound `fetch`: the URL hit and the JSON request body sent. -/
structure OutboundCall where
  url : String
  body : Json
deriving Repr

/-- What one `fetchWithRetry` invocation produces: the returned data or the
thrown error, plus the trace of fetches issued and backoff waits performed. -/
structure RetryResult where
  outcome : Except JsError Json
  log : List OutboundCall
  waits : List Nat
deriving Repr

/-- The body of `fetchWithRetry`'s `for` loop, one recursive step per
attempt.  `upstream` maps the global index of each outbound fetch to its
response; `idx` is the index the next fetch will use; `attempt` is the loop
counter of the source (starting at 1); `lastErr` is the source's `lastErr`;
the final `Nat` argument is the number of loop iterations still permitted,
`maxAttempts - attempt + 1` at every reachable call.  Exhausting the loop
throws `lastErr` or the generic failure, exactly as the source's final
`throw` does. -/
def fetchGo (upstream : Nat → UpstreamResp) (req : OutboundCall)
    (maxAttempts idx attempt : Nat) (lastErr : Option JsError) :
    Nat → RetryResult
  | 0 =>
    ⟨.error (lastErr.getD ⟨"Error", "Falha desconhecida no retry.", none, none⟩), [], []⟩
  | fuel + 1 =>
    match upstream idx with
    | .netErr nm m => ⟨.error ⟨nm, m, none, none⟩, [req], []⟩
    | .ok status body =>
      let data := parseOrEmpty body
      if 200 ≤ status ∧ status < 300 then
        ⟨.ok data, [req], []⟩
      else
        let msg := extractMsg data
        if (status = 429 ∨ status = 503) ∧ attempt < maxAttempts then
          let r := fetchGo upstream req maxAttempts (idx + 1) (attempt + 1)
            (some ⟨"Error", errText status msg, some status, none⟩) fuel
          ⟨r.outcome, req :: r.log, (1000 * 2 ^ (attempt - 1)) :: r.waits⟩
        else
          ⟨.error ⟨"Error", errText status msg, some status, some data⟩, [req], []⟩

/-- `fetchWithRetry(url, options, maxAttempts)`: run the attempt loop from
attempt 1 with no recorded failure.  `startIdx` is the global index of the
first fetch this invocation will issue. -/
def fetchWithRetry (upstream : Nat → UpstreamResp) (req : OutboundCall)
    (startIdx maxAttempts : Nat) : RetryResult :=
  fetchGo upstream req maxAttempts startIdx 1 none maxAttempts

/-- The primary model identifier. -/
def MODEL_PRIMARY : String := "gemini-3-flash-preview"

/-- The fallback model identifier. -/
def MODEL_FALLBACK : String := "gemini-2.0-flash"

/-- The upstream URL `callGemini` builds. -/
def geminiUrl (model apiKey : String) : String :=
  "https://generativelanguage.googleapis.com/v1beta/models/" ++ model
    ++ ":generateContent?key=" ++ apiKey

/-- The provider request shape:
`{contents: [{role: "user", parts: [{text: prompt}]}]}`. -/
def geminiBody (prompt : String) : Json :=
  Json.obj [("contents", Json.arr [Json.obj
    [("role", Json.str "user"),
     ("parts", Json.arr [Json.obj [("text", Json.str prompt)]])]])]

/-- The outbound call `callGemini` issues (URL plus JSON body). -/
def mkCall (apiKey model prompt : String) : OutboundCall :=
  ⟨geminiUrl model apiKey, geminiBody prompt⟩

/-- `callGemini({apiKey, model, prompt})`: one `fetchWithRetry` invocation
against the model's endpoint.  The source calls `fetchWithRetry` with its
default budget, `maxAttempts = 4`; the budget is kept as a parameter so the
spec's degenerate configuration (`maxAttempts = 1`) is expressible. -/
def callGemini (apiKey model prompt : String) (maxAttempts : Nat)
    (upstream : Nat → UpstreamResp) (startIdx : Nat) : RetryResult :=
  fetchWithRetry upstream (mkCall apiKey model prompt) startIdx maxAttempts

/-- The inbound HTTP request as the handler reads it: the method string and
the parsed JSON body (`none` when `req.body` is undefined). -/
structure Request where
  method : String
  body : Option Json
deriving Repr

/-- Everything one handler invocation produces: the outbound HTTP status and
JSON body, the trace of outbound fetches, the number of transport
(`fetchWithRetry`) invocations, and the backoff waits performed. -/
structure HandlerResult where
  status : Nat
  body : Json
  log : List OutboundCall
  transports : Nat
  waits : List Nat
deriving Repr

/-- The outbound HTTP response: the externally visible part of a
`HandlerResult`. -/
structure HttpResponse where
  status : Nat
  body : Json
deriving Repr

/-- Project the HTTP response out of a handler result. -/
def HandlerResult.response (h : HandlerResult) : HttpResponse := ⟨h.status, h.body⟩

/-- `const { prompt } = req.body || {}` followed by the guard
`!prompt || typeof prompt !== "string"`: yields the prompt exactly when it
is a non-empty string. -/
def promptOf (body : Option Json) : Option String :=
  match body.bind (fun b => b.lookup "prompt") with
  | some (Json.str s) => if s = "" then none else some s
  | _ => none

/-- The guard `!apiKey` on `process.env.GEMINI_API_KEY` (`none` = variable
absent): the key is usable exactly when present and non-empty. -/
def keyUsable : Option String → Bool
  | none => false
  | some s => s != ""

/-- The 500 body the outer catch produces: `{error: {message: ...}}`. -/
def errBody (e : JsError) : Json :=
  Json.obj [("error", Json.obj [("message", Json.str (handlerMessage e))])]

/-- The retry+fallback handler of `api/generate.js`, with the attempt budget
and the presence of the fallback branch exposed as configuration (the source
fixes them to 4 and `true`; `handler` below instantiates them so).  The
upstream oracle indexes fetches globally, so the fallback transport's first
fetch uses the index after the primary transport's last. -/
def handlerConfig (maxAttempts : Nat) (useFallback : Bool)
    (apiKey : Option String) (upstream : Nat → UpstreamResp) (req : Request) :
    HandlerResult :=
  if req.method ≠ "POST" then
    ⟨405, Json.obj [("error", Json.str "Method not allowed")], [], 0, []⟩
  else
    match promptOf req.body with
    | none => ⟨400, Json.obj [("error", Json.str "Missing or invalid prompt")], [], 0, []⟩
    | some prompt =>
      if keyUsable apiKey then
        let key := apiKey.getD ""
        let r1 := callGemini key MODEL_PRIMARY prompt maxAttempts upstream 0
        match r1.outcome with
        | .ok d => ⟨200, d, r1.log, 1, r1.waits⟩
        | .error e =>
          let st := e.status.getD 0
          if useFallback = true ∧ (st = 429 ∨ st = 503) then
            let r2 := callGemini key MODEL_FALLBACK prompt maxAttempts upstream r1.log.length
            match r2.outcome with
            | .ok d => ⟨200, d, r1.log ++ r2.log, 2, r1.waits ++ r2.waits⟩
            | .error e2 =>
              ⟨500, errBody e2, r1.log ++ r2.log, 2, r1.waits ++ r2.waits⟩
          else
            ⟨500, errBody e, r1.log, 1, r1.waits⟩
      else
        ⟨500, Json.obj [("error", Json.str "Missing GEMINI_API_KEY env var")], [], 0, []⟩

/-- `module.exports` of `api/generate.js` as shipped: budget 4, fallback on. -/
def handler (apiKey : Option String) (upstream : Nat → UpstreamResp)
    (req : Request) : HandlerResult :=
  handlerConfig 4 true apiKey upstream req

/-- The simpler source variant: one direct fetch of `gemini-2.0-flash`, the
upstream status and payload forwarded verbatim, `r.json()` failures and
fetch rejections caught into `{error: String(e)}` with status 500. -/
def handlerSimple (apiKey : Option String) (upstream : Nat → UpstreamResp)
    (req : Request) : HandlerResult :=
  if req.method ≠ "POST" then
    ⟨405, Json.obj [("error", Json.str "Method not allowed")], [], 0, []⟩
  else
    match promptOf req.body with
    | none => ⟨400, Json.obj [("error", Json.str "Missing or invalid prompt")], [], 0, []⟩
    | some prompt =>
      if keyUsable apiKey then
        let key := apiKey.getD ""
        let call := mkCall key "gemini-2.0-flash" prompt
        match upstream 0 with
        | .netErr nm m =>
          ⟨500, Json.obj [("error", Json.str (JsError.toDisplay ⟨nm, m, none, none⟩))],
           [call], 1, []⟩
        | .ok st body =>
          match body with
          | .failed s => ⟨500, Json.obj [("error", Json.str s)], [call], 1, []⟩
          | .parsed d => ⟨st, d, [call], 1, []⟩
      else
        ⟨500, Json.obj [("error", Json.str "Missing GEMINI_API_KEY env var")], [], 0, []⟩

/-- Every fetch recorded by one transport invocation hits the same URL with
the same body: the log is a replication of the invocation's request. -/
lemma fetchGo_log_replicate (u : Nat → UpstreamResp) (req : OutboundCall)
    (m : Nat) : ∀ fuel idx n le, ∃ k,
    (fetchGo u req m idx n le fuel).log = List.replicate k req := by
  intro fuel
  induction fuel with
  | zero => intro idx n le; exact ⟨0, rfl⟩
  | succ f ih =>
    intro idx n le
    cases hu : u idx with
    | netErr nm msg => exact ⟨1, by simp [fetchGo, hu]⟩
    | ok st b =>
      by_cases h2 : 200 ≤ st ∧ st < 300
      · exact ⟨1, by simp [fetchGo, hu, h2]⟩
      · by_cases ht : (st = 429 ∨ st = 503) ∧ n < m
        · obtain ⟨k, hk⟩ := ih (idx + 1) (n + 1)
            (some ⟨"Error", errText st (extractMsg (parseOrEmpty b)), some st, none⟩)
          refine ⟨k + 1, ?_⟩
          simp [fetchGo, hu, h2, ht, hk, List.replicate_succ]
        · exact ⟨1, by simp [fetchGo, hu, h2, ht]⟩

/-- A transport invocation that returns data got it from some 2xx upstream
response, passing the parsed body through unchanged. -/
lemma fetchGo_ok_source (u : Nat → UpstreamResp) (req : OutboundCall)
    (m : Nat) : ∀ fuel idx n le d,
    (fetchGo u req m idx n le fuel).outcome = Except.ok d →
    ∃ i st b, u i = UpstreamResp.ok st b ∧ 200 ≤ st ∧ st < 300
      ∧ d = parseOrEmpty b := by
  intro fuel
  induction fuel with
  | zero => intro idx n le d h; exact absurd h (by simp [fetchGo])
  | succ f ih =>
    intro idx n le d h
    cases hu : u idx with
    | netErr nm msg => rw [show fetchGo u req m idx n le (f+1)
        = ⟨.error ⟨nm, msg, none, none⟩, [req], []⟩ by simp [fetchGo, hu]] at h
                       exact absurd h (by simp)
    | ok st b =>
      by_cases h2 : 200 ≤ st ∧ st < 300
      · refine ⟨idx, st, b, hu, h2.1, h2.2, ?_⟩
        rw [show fetchGo u req m idx n le (f+1) = ⟨.ok (parseOrEmpty b), [req], []⟩
          by simp [fetchGo, hu, h2]] at h
        simpa using h.symm
      · by_cases ht : (st = 429 ∨ st = 503) ∧ n < m
        · have : (fetchGo u req m idx n le (f+1)).outcome
              = (fetchGo u req m (idx + 1) (n + 1)
                  (some ⟨"Error", errText st (extractMsg (parseOrEmpty b)), some st, none⟩)
                  f).outcome := by
            simp [fetchGo, hu, h2, ht]
          exact ih (idx + 1) (n + 1) _ d (this ▸ h)
        · rw [show fetchGo u req m idx n le (f+1)
            = ⟨.error ⟨"Error", errText st (extractMsg (parseOrEmpty b)), some st,
                some (parseOrEmpty b)⟩, [req], []⟩ by simp [fetchGo, hu, h2, ht]] at h
          exact absurd h (by simp)

/-- A primary transport run whose four budgeted fetches all return 429
performs three backoff waits (1s, 2s, 4s), issues exactly four fetches, and
throws a 429-tagged error built from the last attempt's payload. -/
lemma fetchGo_exhaust_429 (u : Nat → UpstreamResp) (req : OutboundCall)
    (b0 b1 b2 b3 : BodyParse)
    (h0 : u 0 = UpstreamResp.ok 429 b0) (h1 : u 1 = UpstreamResp.ok 429 b1)
    (h2 : u 2 = UpstreamResp.ok 429 b2) (h3 : u 3 = UpstreamResp.ok 429 b3) :
    fetchGo u req 4 0 1 none 4
      = ⟨Except.error ⟨"Error", errText 429 (extractMsg (parseOrEmpty b3)), some 429,
          some (parseOrEmpty b3)⟩,
         List.replicate 4 req, [1000, 2000, 4000]⟩ := by
  norm_num [fetchGo, h0, h1, h2, h3, List.replicate]

/-- C2: on any attempt `n < maxAttempts` whose status is exactly 429 or 503,
the transport records a wait of `1000 * 2^(n-1)` milliseconds, stores the
error as the last known failure, and proceeds to attempt `n + 1`; on any
other non-2xx status, or a transient status on the final budgeted attempt,
it throws `Failure(status, message, payload)` at once, issuing no further
fetch. -/
theorem retry_backoff_step (u : Nat → UpstreamResp) (req : OutboundCall)
    (maxAttempts idx n fuel : Nat) (lastErr : Option JsError) (st : Nat)
    (b : BodyParse) (hn : 1 ≤ n) (hresp : u idx = UpstreamResp.ok st b)
    (hfail : ¬(200 ≤ st ∧ st < 300)) :
    (((st = 429 ∨ st = 503) ∧ n < maxAttempts) →
        fetchGo u req maxAttempts idx n lastErr (fuel + 1)
          = ⟨(fetchGo u req maxAttempts (idx + 1) (n + 1)
                (some ⟨"Error", errText st (extractMsg (parseOrEmpty b)), some st, none⟩)
                fuel).outcome,
             req :: (fetchGo u req maxAttempts (idx + 1) (n + 1)
                (some ⟨"Error", errText st (extractMsg (parseOrEmpty b)), some st, none⟩)
                fuel).log,
             1000 * 2 ^ (n - 1) :: (fetchGo u req maxAttempts (idx + 1) (n + 1)
                (some ⟨"Error", errText st (extractMsg (parseOrEmpty b)), some st, none⟩)
                fuel).waits⟩)
    ∧ (¬((st = 429 ∨ st = 503) ∧ n < maxAttempts) →
        fetchGo u req maxAttempts idx n lastErr (fuel + 1)
          = ⟨Except.error ⟨"Error", errText st (extractMsg (parseOrEmpty b)), some st,
              some (parseOrEmpty b)⟩, [req], []⟩) := by
  constructor
  · intro h; simp [fetchGo, hresp, hfail, h]
  · intro h; simp [fetchGo, hresp, hfail, h]

/-- Witness for C2: a 429 on attempt 1 of 4 waits 1000 ms and recurses into
attempt 2; a 404 on attempt 1 throws at once with a single fetch logged. -/
theorem retry_backoff_step_witness :
    (fetchGo (fun _ => UpstreamResp.ok 429 (BodyParse.parsed Json.null))
        ⟨"u", Json.null⟩ 4 0 1 none 4
      = ⟨(fetchGo (fun _ => UpstreamResp.ok 429 (BodyParse.parsed Json.null))
            ⟨"u", Json.null⟩ 4 1 2
            (some ⟨"Error", errText 429 (extractMsg (parseOrEmpty (BodyParse.parsed Json.null))),
              some 429, none⟩) 3).outcome,
         OutboundCall.mk "u" Json.null ::
           (fetchGo (fun _ => UpstreamResp.ok 429 (BodyParse.parsed Json.null))
            ⟨"u", Json.null⟩ 4 1 2
            (some ⟨"Error", errText 429 (extractMsg (parseOrEmpty (BodyParse.parsed Json.null))),
              some 429, none⟩) 3).log,
         1000 * 2 ^ (1 - 1) ::
           (fetchGo (fun _ => UpstreamResp.ok 429 (BodyParse.parsed Json.null))
            ⟨"u", Json.null⟩ 4 1 2
            (some ⟨"Error", errText 429 (extractMsg (parseOrEmpty (BodyParse.parsed Json.null))),
              some 429, none⟩) 3).waits⟩)
    ∧ (fetchGo (fun _ => UpstreamResp.ok 404 (BodyParse.parsed Json.null))
        ⟨"u", Json.null⟩ 4 0 1 none 4
      = ⟨Except.error ⟨"Error", errText 404 (extractMsg (parseOrEmpty (BodyParse.parsed Json.null))),
          some 404, some (parseOrEmpty (BodyParse.parsed Json.null))⟩,
         [⟨"u", Json.null⟩], []⟩) :=
  ⟨(retry_backoff_step (fun _ => UpstreamResp.ok 429 (BodyParse.parsed Json.null))
      ⟨"u", Json.null⟩ 4 0 1 3 none 429 (BodyParse.parsed Json.null)
      (by decide) rfl (by decide)).1 (by decide),
   (retry_backoff_step (fun _ => UpstreamResp.ok 404 (BodyParse.parsed Json.null))
      ⟨"u", Json.null⟩ 4 0 1 3 none 404 (BodyParse.parsed Json.null)
      (by decide) rfl (by decide)).2 (by decide)⟩

/-- C4 counterexample: on the payload `{"error": {"message": ""}}` the field
`payload.error.message` is present (and equals `""`), yet the extracted
message is the whole `error` object, not `""` — the code's `||` chain skips
present-but-falsy values — so the thrown failure's text renders it as
`[object Object]`. -/
theorem message_presence_precedence_cex :
    errMsgField (Json.obj [("error", Json.obj [("message", Json.str "")])])
      = some (Json.str "")
    ∧ extractMsg (Json.obj [("error", Json.obj [("message", Json.str "")])])
      ≠ Json.str ""
    ∧ (fetchWithRetry
        (fun _ => UpstreamResp.ok 400
          (BodyParse.parsed (Json.obj [("error", Json.obj [("message", Json.str "")])])))
        ⟨"u", Json.null⟩ 0 4).outcome
      = Except.error ⟨"Error", "400: [object Object]", some 400,
          some (Json.obj [("error", Json.obj [("message", Json.str "")])])⟩ :=
  ⟨rfl, fun h => Json.noConfusion h, rfl⟩

/-- C4 (amended): every terminal non-2xx response makes the transport throw
`Failure(status, message, payload)` whose message component is extracted by
JS-truthy precedence: `payload.error.message` when present and truthy,
otherwise `payload.error` when present and truthy, otherwise the JSON
stringification of the full payload. -/
theorem failure_message_truthy_precedence (u : Nat → UpstreamResp)
    (req : OutboundCall) (maxAttempts idx n fuel : Nat) (lastErr : Option JsError)
    (st : Nat) (b : BodyParse) (hresp : u idx = UpstreamResp.ok st b)
    (hfail : ¬(200 ≤ st ∧ st < 300))
    (hterm : ¬((st = 429 ∨ st = 503) ∧ n < maxAttempts)) :
    (fetchGo u req maxAttempts idx n lastErr (fuel + 1)).outcome
      = Except.error ⟨"Error", errText st (extractMsg (parseOrEmpty b)), some st,
          some (parseOrEmpty b)⟩
    ∧ (∀ v, errMsgField (parseOrEmpty b) = some v → truthy v = true →
        extractMsg (parseOrEmpty b) = v)
    ∧ (∀ v, keepTruthy (errMsgField (parseOrEmpty b)) = none →
        errField (parseOrEmpty b) = some v → truthy v = true →
        extractMsg (parseOrEmpty b) = v)
    ∧ (keepTruthy (errMsgField (parseOrEmpty b)) = none →
        keepTruthy (errField (parseOrEmpty b)) = none →
        extractMsg (parseOrEmpty b) = Json.str (stringify (parseOrEmpty b))) := by
  refine ⟨by simp [fetchGo, hresp, hfail, hterm], ?_, ?_, ?_⟩
  · intro v hv htr; simp [extractMsg, hv, keepTruthy, htr]
  · intro v h1 h2 h3
    unfold extractMsg
    rw [h1, h2]
    simp [keepTruthy, h3]
  · intro h1 h2; simp [extractMsg, h1, h2]

/-- Witness for C4 (amended): a 400 with payload `{"error": "x"}` throws a
failure carrying that payload and the truthy-precedence message. -/
theorem failure_message_truthy_precedence_witness :
    (fetchGo
        (fun _ => UpstreamResp.ok 400
          (BodyParse.parsed (Json.obj [("error", Json.str "x")])))
        ⟨"u", Json.null⟩ 4 0 1 none 4).outcome
      = Except.error ⟨"Error",
          errText 400 (extractMsg (parseOrEmpty
            (BodyParse.parsed (Json.obj [("error", Json.str "x")])))), some 400,
          some (parseOrEmpty (BodyParse.parsed (Json.obj [("error", Json.str "x")])))⟩ :=
  (failure_message_truthy_precedence
    (fun _ => UpstreamResp.ok 400 (BodyParse.parsed (Json.obj [("error", Json.str "x")])))
    ⟨"u", Json.null⟩ 4 0 1 3 none 400 (BodyParse.parsed (Json.obj [("error", Json.str "x")]))
    rfl (by decide) (by decide)).1

/-- C1: for a POST with a valid prompt and a usable key, when all four
budgeted primary attempts return 429, the handler re-invokes the transport
against the fallback target with the same request shape (same prompt body)
and a fresh budget starting at fetch index 4; if that fallback invocation
returns data `d`, the final response is 200 with `d`. -/
theorem persistent_rate_limit_fallback_succeeds (apiKey : Option String)
    (u : Nat → UpstreamResp) (req : Request) (p : String) (d : Json)
    (hm : req.method = "POST") (hp : promptOf req.body = some p)
    (hk : keyUsable apiKey = true)
    (h429 : ∀ i, i < 4 → ∃ b, u i = UpstreamResp.ok 429 b)
    (hfb : (fetchWithRetry u (mkCall (apiKey.getD "") MODEL_FALLBACK p) 4 4).outcome
            = Except.ok d) :
    (handler apiKey u req).response = ⟨200, d⟩
    ∧ (handler apiKey u req).transports = 2
    ∧ ∃ k, (handler apiKey u req).log
        = List.replicate 4 (mkCall (apiKey.getD "") MODEL_PRIMARY p)
          ++ List.replicate k (mkCall (apiKey.getD "") MODEL_FALLBACK p) := by
  obtain ⟨b0, h0⟩ := h429 0 (by omega)
  obtain ⟨b1, h1⟩ := h429 1 (by omega)
  obtain ⟨b2, h2⟩ := h429 2 (by omega)
  obtain ⟨b3, h3⟩ := h429 3 (by omega)
  have hex := fetchGo_exhaust_429 u (mkCall (apiKey.getD "") MODEL_PRIMARY p)
    b0 b1 b2 b3 h0 h1 h2 h3
  have hfbd : (fetchGo u (mkCall (apiKey.getD "") MODEL_FALLBACK p) 4 4 1 none 4).outcome
      = Except.ok d := by simpa [fetchWithRetry] using hfb
  obtain ⟨k2, hk2⟩ := fetchGo_log_replicate u (mkCall (apiKey.getD "") MODEL_FALLBACK p)
    4 4 4 1 none
  refine ⟨?_, ?_, k2, ?_⟩ <;>
    simp [handler, handlerConfig, callGemini, fetchWithRetry, hm, hp, hk, hex, hfbd,
      hk2, HandlerResult.response]

/-- Witness for C1: four 429s then a 200 from the fallback target yield a
200 response carrying the fallback payload via two transport invocations. -/
theorem persistent_rate_limit_fallback_succeeds_witness :
    (handler (some "k")
        (fun i => if i < 4
          then UpstreamResp.ok 429 (BodyParse.parsed (Json.obj [("error", Json.str "rate")]))
          else UpstreamResp.ok 200 (BodyParse.parsed (Json.str "payload")))
        ⟨"POST", some (Json.obj [("prompt", Json.str "hi")])⟩).response
      = ⟨200, Json.str "payload"⟩
    ∧ (handler (some "k")
        (fun i => if i < 4
          then UpstreamResp.ok 429 (BodyParse.parsed (Json.obj [("error", Json.str "rate")]))
          else UpstreamResp.ok 200 (BodyParse.parsed (Json.str "payload")))
        ⟨"POST", some (Json.obj [("prompt", Json.str "hi")])⟩).transports = 2 :=
  ⟨(persistent_rate_limit_fallback_succeeds (some "k")
      (fun i => if i < 4
        then UpstreamResp.ok 429 (BodyParse.parsed (Json.obj [("error", Json.str "rate")]))
        else UpstreamResp.ok 200 (BodyParse.parsed (Json.str "payload")))
      ⟨"POST", some (Json.obj [("prompt", Json.str "hi")])⟩ "hi" (Json.str "payload")
      rfl rfl rfl
      (fun i hi => by interval_cases i <;>
        exact ⟨BodyParse.parsed (Json.obj [("error", Json.str "rate")]), rfl⟩)
      rfl).1,
   (persistent_rate_limit_fallback_succeeds (some "k")
      (fun i => if i < 4
        then UpstreamResp.ok 429 (BodyParse.parsed (Json.obj [("error", Json.str "rate")]))
        else UpstreamResp.ok 200 (BodyParse.parsed (Json.str "payload")))
      ⟨"POST", some (Json.obj [("prompt", Json.str "hi")])⟩ "hi" (Json.str "payload")
      rfl rfl rfl
      (fun i hi => by interval_cases i <;>
        exact ⟨BodyParse.parsed (Json.obj [("error", Json.str "rate")]), rfl⟩)
      rfl).2.1⟩

/-- C5: whatever the key configuration, upstream behavior (including thrown
transport errors) and inbound request, the handler returns exactly one
response, its status is 405, 400, 500 or 200, and its body has the
documented shape for that status (200 carries the parsed payload of some
2xx upstream response; 500 carries the missing-credential message or a
wrapped `{error: {message}}`); totality of the function embodies that the
handler never propagates an exception. -/
theorem handler_response_classification (apiKey : Option String)
    (u : Nat → UpstreamResp) (req : Request) :
    ((handler apiKey u req).status = 405
      ∧ (handler apiKey u req).body = Json.obj [("error", Json.str "Method not allowed")])
    ∨ ((handler apiKey u req).status = 400
      ∧ (handler apiKey u req).body = Json.obj [("error", Json.str "Missing or invalid prompt")])
    ∨ ((handler apiKey u req).status = 500
      ∧ ((handler apiKey u req).body
            = Json.obj [("error", Json.str "Missing GEMINI_API_KEY env var")]
        ∨ ∃ s, (handler apiKey u req).body
            = Json.obj [("error", Json.obj [("message", Json.str s)])]))
    ∨ ((handler apiKey u req).status = 200
      ∧ ∃ i st b, u i = UpstreamResp.ok st b ∧ 200 ≤ st ∧ st < 300
          ∧ (handler apiKey u req).body = parseOrEmpty b) := by
  by_cases hm : req.method = "POST"
  · cases hpo : promptOf req.body with
    | none =>
      right; left
      constructor <;> simp [handler, handlerConfig, hm, hpo]
    | some p =>
      by_cases hk : keyUsable apiKey
      · cases h1 : (callGemini (apiKey.getD "") MODEL_PRIMARY p 4 u 0).outcome with
        | ok d =>
          right; right; right
          obtain ⟨i, st, b, hi, hst1, hst2, hd⟩ :=
            fetchGo_ok_source u (mkCall (apiKey.getD "") MODEL_PRIMARY p) 4 4 0 1 none d
              (by simpa [callGemini, fetchWithRetry] using h1)
          refine ⟨?_, i, st, b, hi, hst1, hst2, ?_⟩ <;>
            simp [handler, handlerConfig, hm, hpo, hk, h1, hd]
        | error e =>
          by_cases hc : e.status.getD 0 = 429 ∨ e.status.getD 0 = 503
          · cases h2 : (callGemini (apiKey.getD "") MODEL_FALLBACK p 4 u
                (callGemini (apiKey.getD "") MODEL_PRIMARY p 4 u 0).log.length).outcome with
            | ok d =>
              right; right; right
              obtain ⟨i, st, b, hi, hst1, hst2, hd⟩ :=
                fetchGo_ok_source u (mkCall (apiKey.getD "") MODEL_FALLBACK p) 4 4
                  (callGemini (apiKey.getD "") MODEL_PRIMARY p 4 u 0).log.length 1 none d
                  (by simpa [callGemini, fetchWithRetry] using h2)
              rcases hc with hc | hc <;>
                (refine ⟨?_, i, st, b, hi, hst1, hst2, ?_⟩ <;>
                  simp [handler, handlerConfig, hm, hpo, hk, h1, h2, hc, hd])
            | error e2 =>
              right; right; left
              rcases hc with hc | hc <;>
                (refine ⟨?_, Or.inr ⟨handlerMessage e2, ?_⟩⟩ <;>
                  simp [handler, handlerConfig, hm, hpo, hk, h1, h2, hc, errBody])
          · right; right; left
            refine ⟨?_, Or.inr ⟨handlerMessage e, ?_⟩⟩ <;>
              simp [handler, handlerConfig, hm, hpo, hk, h1, hc, errBody]
      · right; right; left
        have hk' : keyUsable apiKey = false := by simpa using hk
        refine ⟨?_, Or.inl ?_⟩ <;> simp [handler, handlerConfig, hm, hpo, hk']
  · left
    constructor <;> simp [handler, handlerConfig, hm]

/-- C6: for a POST with a valid prompt and usable key, a first primary
response with a permanent (non-429/503, non-2xx) status causes no retry
wait, no further fetch and no fallback invocation: the handler answers 500
at once with the message derived from the upstream error body. -/
theorem permanent_error_immediate_500 (apiKey : Option String)
    (u : Nat → UpstreamResp) (req : Request) (p : String) (st : Nat) (b : BodyParse)
    (hm : req.method = "POST") (hp : promptOf req.body = some p)
    (hk : keyUsable apiKey = true)
    (h0 : u 0 = UpstreamResp.ok st b) (hfail : ¬(200 ≤ st ∧ st < 300))
    (h429 : st ≠ 429) (h503 : st ≠ 503) :
    (handler apiKey u req).response
      = ⟨500, errBody ⟨"Error", errText st (extractMsg (parseOrEmpty b)), some st,
          some (parseOrEmpty b)⟩⟩
    ∧ (handler apiKey u req).log = [mkCall (apiKey.getD "") MODEL_PRIMARY p]
    ∧ (handler apiKey u req).transports = 1
    ∧ (handler apiKey u req).waits = [] := by
  have hr1 : fetchGo u (mkCall (apiKey.getD "") MODEL_PRIMARY p) 4 0 1 none 4
      = ⟨Except.error ⟨"Error", errText st (extractMsg (parseOrEmpty b)), some st,
          some (parseOrEmpty b)⟩, [mkCall (apiKey.getD "") MODEL_PRIMARY p], []⟩ := by
    simp [fetchGo, h0, hfail, h429, h503]
  refine ⟨?_, ?_, ?_, ?_⟩ <;>
    simp [handler, handlerConfig, callGemini, fetchWithRetry, hm, hp, hk, hr1,
      HandlerResult.response, h429, h503]

/-- Witness for C6: a 400 from the primary target with body
`{"error": {"message": "bad"}}` yields an immediate 500 with the derived
message and no second fetch. -/
theorem permanent_error_immediate_500_witness :
    (handler (some "k")
        (fun _ => UpstreamResp.ok 400
          (BodyParse.parsed (Json.obj [("error", Json.obj [("message", Json.str "bad")])])))
        ⟨"POST", some (Json.obj [("prompt", Json.str "hi")])⟩).response
      = ⟨500, errBody ⟨"Error",
          errText 400 (extractMsg (parseOrEmpty (BodyParse.parsed
            (Json.obj [("error", Json.obj [("message", Json.str "bad")])])))), some 400,
          some (parseOrEmpty (BodyParse.parsed
            (Json.obj [("error", Json.obj [("message", Json.str "bad")])])))⟩⟩
    ∧ (handler (some "k")
        (fun _ => UpstreamResp.ok 400
          (BodyParse.parsed (Json.obj [("error", Json.obj [("message", Json.str "bad")])])))
        ⟨"POST", some (Json.obj [("prompt", Json.str "hi")])⟩).log
      = [mkCall "k" MODEL_PRIMARY "hi"]
    ∧ (handler (some "k")
        (fun _ => UpstreamResp.ok 400
          (BodyParse.parsed (Json.obj [("error", Json.obj [("message", Json.str "bad")])])))
        ⟨"POST", some (Json.obj [("prompt", Json.str "hi")])⟩).transports = 1
    ∧ (handler (some "k")
        (fun _ => UpstreamResp.ok 400
          (BodyParse.parsed (Json.obj [("error", Json.obj [("message", Json.str "bad")])])))
        ⟨"POST", some (Json.obj [("prompt", Json.str "hi")])⟩).waits = [] :=
  permanent_error_immediate_500 (some "k")
    (fun _ => UpstreamResp.ok 400
      (BodyParse.parsed (Json.obj [("error", Json.obj [("message", Json.str "bad")])])))
    ⟨"POST", some (Json.obj [("prompt", Json.str "hi")])⟩ "hi" 400
    (BodyParse.parsed (Json.obj [("error", Json.obj [("message", Json.str "bad")])]))
    rfl rfl rfl rfl (by decide) (by decide) (by decide)

/-- C8: with the guards passed, whenever a transport invocation returns a
payload, the handler's 200 response carries exactly that payload,
untransformed — on the primary path and on the fallback path alike. -/
theorem success_payload_roundtrip (apiKey : Option String) (u : Nat → UpstreamResp)
    (req : Request) (p : String) (d : Json)
    (hm : req.method = "POST") (hp : promptOf req.body = some p)
    (hk : keyUsable apiKey = true) :
    ((callGemini (apiKey.getD "") MODEL_PRIMARY p 4 u 0).outcome = Except.ok d →
      (handler apiKey u req).response = ⟨200, d⟩)
    ∧ (∀ e, (callGemini (apiKey.getD "") MODEL_PRIMARY p 4 u 0).outcome = Except.error e →
        (e.status.getD 0 = 429 ∨ e.status.getD 0 = 503) →
        (callGemini (apiKey.getD "") MODEL_FALLBACK p 4 u
            (callGemini (apiKey.getD "") MODEL_PRIMARY p 4 u 0).log.length).outcome
          = Except.ok d →
        (handler apiKey u req).response = ⟨200, d⟩) := by
  constructor
  · intro h1
    simp [handler, handlerConfig, hm, hp, hk, h1, HandlerResult.response]
  · intro e h1 hst h2
    rcases hst with h | h <;>
      simp [handler, handlerConfig, hm, hp, hk, h1, h2, h, HandlerResult.response]

/-- Witness for C8: a first-attempt 200 with payload `"ok"` is returned
verbatim. -/
theorem success_payload_roundtrip_witness :
    (handler (some "k") (fun _ => UpstreamResp.ok 200 (BodyParse.parsed (Json.str "ok")))
        ⟨"POST", some (Json.obj [("prompt", Json.str "hi")])⟩).response
      = ⟨200, Json.str "ok"⟩ :=
  (success_payload_roundtrip (some "k")
    (fun _ => UpstreamResp.ok 200 (BodyParse.parsed (Json.str "ok")))
    ⟨"POST", some (Json.obj [("prompt", Json.str "hi")])⟩ "hi" (Json.str "ok")
    rfl rfl rfl).1 rfl

/-- C9: any POST whose body lacks a `prompt` field, whose `prompt` is not a
string, or whose `prompt` is the empty string, is answered 400 with
`{error: "Missing or invalid prompt"}` and causes no outbound fetch. -/
theorem invalid_prompt_rejected (apiKey : Option String) (u : Nat → UpstreamResp)
    (req : Request) (hm : req.method = "POST")
    (hp : req.body.bind (fun b => b.lookup "prompt") = none
        ∨ (∃ j, req.body.bind (fun b => b.lookup "prompt") = some j
            ∧ ∀ s, j ≠ Json.str s)
        ∨ req.body.bind (fun b => b.lookup "prompt") = some (Json.str "")) :
    (handler apiKey u req).response
      = ⟨400, Json.obj [("error", Json.str "Missing or invalid prompt")]⟩
    ∧ (handler apiKey u req).log = []
    ∧ (handler apiKey u req).transports = 0 := by
  have hpo : promptOf req.body = none := by
    rcases hp with h | ⟨j, hj, hns⟩ | h
    · simp [promptOf, h]
    · cases j with
      | str s => exact absurd rfl (hns s)
      | null => simp [promptOf, hj]
      | bool bb => simp [promptOf, hj]
      | num n => simp [promptOf, hj]
      | arr xs => simp [promptOf, hj]
      | obj fs => simp [promptOf, hj]
    · simp [promptOf, h]
  refine ⟨?_, ?_, ?_⟩ <;>
    simp [handler, handlerConfig, hm, hpo, HandlerResult.response]

/-- Witness for C9: a POST with a numeric `prompt` is answered 400 with no
outbound call. -/
theorem invalid_prompt_rejected_witness :
    (handler (some "k") (fun _ => UpstreamResp.ok 200 (BodyParse.parsed Json.null))
        ⟨"POST", some (Json.obj [("prompt", Json.num 5)])⟩).response
      = ⟨400, Json.obj [("error", Json.str "Missing or invalid prompt")]⟩
    ∧ (handler (some "k") (fun _ => UpstreamResp.ok 200 (BodyParse.parsed Json.null))
        ⟨"POST", some (Json.obj [("prompt", Json.num 5)])⟩).log = []
    ∧ (handler (some "k") (fun _ => UpstreamResp.ok 200 (BodyParse.parsed Json.null))
        ⟨"POST", some (Json.obj [("prompt", Json.num 5)])⟩).transports = 0 :=
  invalid_prompt_rejected (some "k")
    (fun _ => UpstreamResp.ok 200 (BodyParse.parsed Json.null))
    ⟨"POST", some (Json.obj [("prompt", Json.num 5)])⟩ rfl
    (Or.inr (Or.inl ⟨Json.num 5, rfl, fun s h => Json.noConfusion h⟩))

/-- C10: an empty `GEMINI_API_KEY` is treated exactly like an absent one —
the handler behaves identically under both configurations, and a valid POST
is answered 500 with the missing-credential message and no outbound call. -/
theorem empty_api_key_like_absent (u : Nat → UpstreamResp) (req : Request) :
    handler (some "") u req = handler none u req
    ∧ (req.method = "POST" → (∃ p, promptOf req.body = some p) →
        (handler (some "") u req).response
          = ⟨500, Json.obj [("error", Json.str "Missing GEMINI_API_KEY env var")]⟩
        ∧ (handler (some "") u req).log = []
        ∧ (handler (some "") u req).transports = 0) := by
  constructor
  · simp [handler, handlerConfig, keyUsable]
  · rintro hm ⟨p, hp⟩
    refine ⟨?_, ?_, ?_⟩ <;>
      simp [handler, handlerConfig, hm, hp, keyUsable, HandlerResult.response]

/-- Witness for C10: with the key set to `""`, a valid POST gets the
missing-credential 500 with no outbound call, exactly as with no key. -/
theorem empty_api_key_like_absent_witness :
    handler (some "") (fun _ => UpstreamResp.ok 200 (BodyParse.parsed Json.null))
        ⟨"POST", some (Json.obj [("prompt", Json.str "hi")])⟩
      = handler none (fun _ => UpstreamResp.ok 200 (BodyParse.parsed Json.null))
        ⟨"POST", some (Json.obj [("prompt", Json.str "hi")])⟩
    ∧ ((handler (some "") (fun _ => UpstreamResp.ok 200 (BodyParse.parsed Json.null))
        ⟨"POST", some (Json.obj [("prompt", Json.str "hi")])⟩).response
      = ⟨500, Json.obj [("error", Json.str "Missing GEMINI_API_KEY env var")]⟩
    ∧ (handler (some "") (fun _ => UpstreamResp.ok 200 (BodyParse.parsed Json.null))
        ⟨"POST", some (Json.obj [("prompt", Json.str "hi")])⟩).log = []
    ∧ (handler (some "") (fun _ => UpstreamResp.ok 200 (BodyParse.parsed Json.null))
        ⟨"POST", some (Json.obj [("prompt", Json.str "hi")])⟩).transports = 0) :=
  ⟨(empty_api_key_like_absent (fun _ => UpstreamResp.ok 200 (BodyParse.parsed Json.null))
      ⟨"POST", some (Json.obj [("prompt", Json.str "hi")])⟩).1,
   (empty_api_key_like_absent (fun _ => UpstreamResp.ok 200 (BodyParse.parsed Json.null))
      ⟨"POST", some (Json.obj [("prompt", Json.str "hi")])⟩).2 rfl ⟨"hi", rfl⟩⟩

/-- C7 counterexample: a GET request is answered by the method guard with no
outbound call at all, so "exactly one or two outbound calls for every
inbound request" fails — the count there is zero. -/
theorem outbound_call_count_cex :
    (handler (some "k") (fun _ => UpstreamResp.ok 200 (BodyParse.parsed Json.null))
        ⟨"GET", none⟩).transports = 0
    ∧ (handler (some "k") (fun _ => UpstreamResp.ok 200 (BodyParse.parsed Json.null))
        ⟨"GET", none⟩).log = []
    ∧ ¬((handler (some "k") (fun _ => UpstreamResp.ok 200 (BodyParse.parsed Json.null))
          ⟨"GET", none⟩).transports = 1
        ∨ (handler (some "k") (fun _ => UpstreamResp.ok 200 (BodyParse.parsed Json.null))
          ⟨"GET", none⟩).transports = 2) :=
  ⟨rfl, rfl, by decide⟩

/-- C7 (amended): a request rejected by the method, prompt, or credential
guard causes zero outbound calls; a request passing all three guards causes
exactly one or two transport invocations (primary, plus the fallback on a
transient primary failure).  The handler is a pure function of its inputs in
this model, so no other state is touched. -/
theorem outbound_transport_count (apiKey : Option String)
    (u : Nat → UpstreamResp) (req : Request) :
    (¬(req.method = "POST" ∧ promptOf req.body ≠ none ∧ keyUsable apiKey = true)
      ∧ (handler apiKey u req).transports = 0 ∧ (handler apiKey u req).log = [])
    ∨ ((req.method = "POST" ∧ promptOf req.body ≠ none ∧ keyUsable apiKey = true)
      ∧ ((handler apiKey u req).transports = 1 ∨ (handler apiKey u req).transports = 2)) := by
  by_cases hm : req.method = "POST"
  · cases hpo : promptOf req.body with
    | none =>
      left
      refine ⟨by simp [hpo], ?_, ?_⟩ <;> simp [handler, handlerConfig, hm, hpo]
    | some p =>
      by_cases hk : keyUsable apiKey
      · right
        refine ⟨⟨hm, by simp [hpo], hk⟩, ?_⟩
        cases h1 : (callGemini (apiKey.getD "") MODEL_PRIMARY p 4 u 0).outcome with
        | ok d => left; simp [handler, handlerConfig, hm, hpo, hk, h1]
        | error e =>
          by_cases hc : e.status.getD 0 = 429 ∨ e.status.getD 0 = 503
          · right
            cases h2 : (callGemini (apiKey.getD "") MODEL_FALLBACK p 4 u
                (callGemini (apiKey.getD "") MODEL_PRIMARY p 4 u 0).log.length).outcome with
            | ok d =>
              rcases hc with hc | hc <;>
                simp [handler, handlerConfig, hm, hpo, hk, h1, h2, hc]
            | error e2 =>
              rcases hc with hc | hc <;>
                simp [handler, handlerConfig, hm, hpo, hk, h1, h2, hc]
          · left; simp [handler, handlerConfig, hm, hpo, hk, h1, hc]
      · left
        have hk' : keyUsable apiKey = false := by simpa using hk
        refine ⟨by simp [hk'], ?_, ?_⟩ <;>
          simp [handler, handlerConfig, hm, hpo, hk']
  · left
    refine ⟨by simp [hm], ?_, ?_⟩ <;> simp [handler, handlerConfig, hm]

/-- C3 counterexample: on a 404 upstream response with body
`{"error": "x"}`, the simple variant forwards status 404 with the upstream
payload verbatim, while the canonical handler configured with
`maxAttempts = 1` and no fallback answers 500 with a wrapped message — the
two variants' responses differ, so the simple variant is not a behavioral
subset at this input. -/
theorem simple_variant_not_degenerate_cex :
    (handlerSimple (some "k")
        (fun _ => UpstreamResp.ok 404 (BodyParse.parsed (Json.obj [("error", Json.str "x")])))
        ⟨"POST", some (Json.obj [("prompt", Json.str "hi")])⟩).response.status = 404
    ∧ (handlerConfig 1 false (some "k")
        (fun _ => UpstreamResp.ok 404 (BodyParse.parsed (Json.obj [("error", Json.str "x")])))
        ⟨"POST", some (Json.obj [("prompt", Json.str "hi")])⟩).response.status = 500
    ∧ (handlerSimple (some "k")
        (fun _ => UpstreamResp.ok 404 (BodyParse.parsed (Json.obj [("error", Json.str "x")])))
        ⟨"POST", some (Json.obj [("prompt", Json.str "hi")])⟩).response
      ≠ (handlerConfig 1 false (some "k")
        (fun _ => UpstreamResp.ok 404 (BodyParse.parsed (Json.obj [("error", Json.str "x")])))
        ⟨"POST", some (Json.obj [("prompt", Json.str "hi")])⟩).response :=
  ⟨rfl, rfl, fun h => absurd (congrArg HttpResponse.status h) (by decide)⟩

/-- C3 (amended): the simple variant agrees with the canonical handler
configured with `maxAttempts = 1` and no fallback on every request rejected
by the method, prompt, or credential guard, and whenever the first upstream
response is HTTP 200 with a parseable JSON body (both then answer 200 with
the payload verbatim); outside that fragment they diverge — the simple
variant forwards non-200 upstream statuses and payloads verbatim where the
canonical handler wraps every non-2xx into a 500 — so it is a degenerate
subset only on the stated fragment. -/
theorem simple_variant_degenerate_agreement (apiKey : Option String)
    (u : Nat → UpstreamResp) (req : Request) :
    ((req.method ≠ "POST" ∨ promptOf req.body = none ∨ keyUsable apiKey = false) →
      (handlerSimple apiKey u req).response
        = (handlerConfig 1 false apiKey u req).response)
    ∧ (∀ p d, req.method = "POST" → promptOf req.body = some p →
        keyUsable apiKey = true → u 0 = UpstreamResp.ok 200 (BodyParse.parsed d) →
        (handlerSimple apiKey u req).response = ⟨200, d⟩
        ∧ (handlerConfig 1 false apiKey u req).response = ⟨200, d⟩) := by
  constructor
  · intro h
    by_cases hm : req.method = "POST"
    · cases hpo : promptOf req.body with
      | none => simp [handlerSimple, handlerConfig, hm, hpo, HandlerResult.response]
      | some p =>
        have hk : keyUsable apiKey = false := by
          rcases h with h | h | h
          · exact absurd hm h
          · rw [h] at hpo; exact Option.noConfusion hpo
          · exact h
        simp [handlerSimple, handlerConfig, hm, hpo, hk, HandlerResult.response]
    · simp [handlerSimple, handlerConfig, hm, HandlerResult.response]
  · intro p d hm hp hk h0
    constructor
    · simp [handlerSimple, hm, hp, hk, h0, HandlerResult.response]
    · have hr1 : fetchGo u (mkCall (apiKey.getD "") MODEL_PRIMARY p) 1 0 1 none 1
          = ⟨Except.ok (parseOrEmpty (BodyParse.parsed d)),
             [mkCall (apiKey.getD "") MODEL_PRIMARY p], []⟩ := by
        simp [fetchGo, h0]
      simp [handlerConfig, callGemini, fetchWithRetry, hm, hp, hk, hr1,
        HandlerResult.response, parseOrEmpty]

/-- Witness for C3 (amended): a GET is answered identically by both
variants, and a 200 upstream response with payload `"ok"` is forwarded as
200 by both variants. -/
theorem simple_variant_degenerate_agreement_witness :
    (handlerSimple (some "k") (fun _ => UpstreamResp.ok 200 (BodyParse.parsed (Json.str "ok")))
        ⟨"GET", none⟩).response
      = (handlerConfig 1 false (some "k")
        (fun _ => UpstreamResp.ok 200 (BodyParse.parsed (Json.str "ok")))
        ⟨"GET", none⟩).response
    ∧ ((handlerSimple (some "k")
        (fun _ => UpstreamResp.ok 200 (BodyParse.parsed (Json.str "ok")))
        ⟨"POST", some (Json.obj [("prompt", Json.str "hi")])⟩).response
      = ⟨200, Json.str "ok"⟩
    ∧ (handlerConfig 1 false (some "k")
        (fun _ => UpstreamResp.ok 200 (BodyParse.parsed (Json.str "ok")))
        ⟨"POST", some (Json.obj [("prompt", Json.str "hi")])⟩).response
      = ⟨200, Json.str "ok"⟩) :=
  ⟨(simple_variant_degenerate_agreement (some "k")
      (fun _ => UpstreamResp.ok 200 (BodyParse.parsed (Json.str "ok")))
      ⟨"GET", none⟩).1 (Or.inl (by decide)),
   (simple_variant_degenerate_agreement (some "k")
      (fun _ => UpstreamResp.ok 200 (BodyParse.parsed (Json.str "ok")))
      ⟨"POST", some (Json.obj [("prompt", Json.str "hi")])⟩).2 "hi" (Json.str "ok")
      rfl rfl rfl rfl⟩
